import Mathlib

/-!
Shallow embedding of the OrionRisc-128 BASIC interpreter core
(`src/system/interpreter/basic-interpreter.c` / `.h`).

Modelling conventions:
* C strings / cursors (`const char **linePtr`) become `List Char` values that
  each function consumes and returns.
* C `double` is modelled by exact rational arithmetic on `Q`, a fraction
  type (integer numerator, positive natural denominator, not reduced so
  that every operation is kernel-computable).  Every computation the
  claims exercise is small-integer arithmetic, on which IEEE double
  arithmetic is exact and agrees with exact rationals.  Comparisons inside
  the interpreter are the numeric ones (`Q.beq` etc.), mirroring C's
  `==`/`<`/… on doubles.
* Fallible or diverging C behaviour is modelled with `Option`: a `none`
  result marks undefined behaviour (null-pointer dereference), an external
  effect that is out of the modelled scope (blocking console input, `rand()`,
  libm transcendentals), or non-termination (loops that consume no input,
  tracked by a `fuel` argument).  Every `some` result is the value the C
  code actually computes.
* The one process-global (`static BASICState globalState`) is modelled in a
  small heap (`Nat → BASICState`) with the global at address 0; a C pointer
  argument is `Option Nat` with `none` for NULL.
-/

namespace OrionBasic

/-! ### Exact rational numbers standing in for C `double`

`Q` is a fraction `num / den` with `den` kept positive; operations do not
reduce fractions, so they are plain `Int`/`Nat` arithmetic and compute
inside the kernel (`decide`/`rfl`).  All comparison helpers compare the
represented numbers (cross-multiplication), exactly as C compares the
represented doubles. -/

structure Q where
  num : Int
  den : Nat := 1
deriving DecidableEq, Repr

def Q.ofInt (n : Int) : Q := ⟨n, 1⟩

instance : OfNat Q n := ⟨⟨(n : Int), 1⟩⟩

/-- Structural negativity test on `Int` (the `Int.negSucc` constructors are
exactly the negative integers). -/
def intIsNeg : Int → Bool
  | .negSucc _ => true
  | .ofNat _ => false

/-- Structural equality test on `Int`. -/
def intEqB : Int → Int → Bool
  | .ofNat a, .ofNat b => a == b
  | .negSucc a, .negSucc b => a == b
  | _, _ => false

/-- Numeric equality (`==` on doubles). -/
def Q.beq (x y : Q) : Bool := intEqB (x.num * (y.den : Int)) (y.num * (x.den : Int))

/-- Numeric strict order (`<` on doubles): `x < y` iff `x - y` is negative. -/
def Q.blt (x y : Q) : Bool := intIsNeg (x.num * (y.den : Int) - y.num * (x.den : Int))

/-- Numeric non-strict order (`<=` on doubles): `x ≤ y` iff `¬(y < x)`. -/
def Q.ble (x y : Q) : Bool := !intIsNeg (y.num * (x.den : Int) - x.num * (y.den : Int))

/-- `x == 0.0`. -/
def Q.isZero (x : Q) : Bool := intEqB x.num 0

def Q.add (x y : Q) : Q := ⟨x.num * (y.den : Int) + y.num * (x.den : Int), x.den * y.den⟩

def Q.sub (x y : Q) : Q := ⟨x.num * (y.den : Int) - y.num * (x.den : Int), x.den * y.den⟩

def Q.mul (x y : Q) : Q := ⟨x.num * y.num, x.den * y.den⟩

/-- Division; callers guard `y ≠ 0` (the interpreter checks before every
division), and the sign is normalized into the numerator. -/
def Q.div (x y : Q) : Q :=
  if y.num < 0 then ⟨-(x.num * (y.den : Int)), x.den * y.num.natAbs⟩
  else ⟨x.num * (y.den : Int), x.den * y.num.natAbs⟩

def Q.neg (x : Q) : Q := ⟨-x.num, x.den⟩

/-- `fabs`. -/
def Q.abs (x : Q) : Q := ⟨(x.num.natAbs : Int), x.den⟩

/-- `floor` (for the INT builtin and for `%.6f` formatting). -/
def Q.floorInt (x : Q) : Int := Int.fdiv x.num (x.den : Int)

/-! ### Error codes (basic-interpreter.h) -/

def ERR_NONE : Nat := 0
def ERR_SYNTAX : Nat := 1
def ERR_OUT_OF_MEMORY : Nat := 2
def ERR_UNDEFINED_VARIABLE : Nat := 3
def ERR_TYPE_MISMATCH : Nat := 4
def ERR_DIVISION_BY_ZERO : Nat := 5
def ERR_ARRAY_BOUNDS : Nat := 6
def ERR_STACK_OVERFLOW : Nat := 7
def ERR_PROGRAM_TOO_LARGE : Nat := 8
def ERR_LINE_NOT_FOUND : Nat := 9
def ERR_NEXT_WITHOUT_FOR : Nat := 10

/-! ### Token and state data model -/

inductive TokenType where
  | TOK_EOL | TOK_NUMBER | TOK_STRING | TOK_VARIABLE
  | TOK_PRINT | TOK_INPUT | TOK_LET | TOK_IF | TOK_THEN | TOK_ELSE
  | TOK_FOR | TOK_TO | TOK_STEP | TOK_NEXT | TOK_GOSUB | TOK_RETURN
  | TOK_GOTO | TOK_READ | TOK_DATA | TOK_DIM | TOK_END | TOK_STOP
  | TOK_REM | TOK_COMMA | TOK_SEMICOLON | TOK_COLON | TOK_LPAREN
  | TOK_RPAREN | TOK_PLUS | TOK_MINUS | TOK_MULTIPLY | TOK_DIVIDE
  | TOK_EQUALS | TOK_LESS | TOK_GREATER | TOK_LESS_EQUAL
  | TOK_GREATER_EQUAL | TOK_NOT_EQUAL | TOK_AND | TOK_OR | TOK_NOT
  | TOK_FUNCTION
deriving DecidableEq, Repr

structure Token where
  type : TokenType
  stringValue : String := ""
  floatValue : Q := Q.ofInt 0
deriving DecidableEq, Repr

inductive VariableType where
  | VAR_NUMERIC | VAR_STRING | VAR_ARRAY_NUMERIC | VAR_ARRAY_STRING
deriving DecidableEq, Repr

/-- The `union` payload of a `Variable`.  The C code always reads the member
matching the `type` tag, so a tagged sum is a faithful model. -/
inductive VarValue where
  | num (v : Q)
  | str (s : String)
  | numArray (a : List Q)
  | strArray (a : List String)
deriving DecidableEq, Repr

def VarValue.asNum : VarValue → Q
  | .num v => v
  | _ => Q.ofInt 0

def VarValue.asStr : VarValue → String
  | .str s => s
  | _ => ""

structure Variable where
  name : String
  type : VariableType
  dimensions : List Nat := []
  size : Nat := 0
  value : VarValue
deriving DecidableEq, Repr

structure ProgramLine where
  lineNumber : Nat
  lineText : String
deriving DecidableEq, Repr

structure BASICState where
  programLines : List ProgramLine := []
  currentLineNumber : Nat := 0
  programSize : Nat := 0
  «variables» : List Variable := []
  running : Bool := false
  errorCode : Nat := 0
  errorMessage : String := ""
  forStack : List Nat := []
  gosubStack : List Nat := []
deriving DecidableEq, Repr

/-! ### Character utilities -/

def isdigit (c : Char) : Bool := '0' ≤ c && c ≤ '9'

def basic_is_alpha (c : Char) : Bool :=
  ('A' ≤ c && c ≤ 'Z') || ('a' ≤ c && c ≤ 'z')

def basic_is_alphanumeric (c : Char) : Bool := basic_is_alpha c || isdigit c

def toupperChar (c : Char) : Char :=
  if 'a' ≤ c && c ≤ 'z' then Char.ofNat (c.toNat - 32) else c

/-- `basic_skip_whitespace`: skip spaces and tabs. -/
def isBlank (c : Char) : Bool := c = ' ' || c = '\t'

def basic_skip_whitespace (l : List Char) : List Char := l.dropWhile isBlank

/-! ### Numeric parsing (basic_parse_int / basic_parse_float) -/

def parse_int_digits : Nat → List Char → Nat × List Char
  | acc, [] => (acc, [])
  | acc, c :: rest =>
    if isdigit c then parse_int_digits (acc * 10 + (c.toNat - 48)) rest
    else (acc, c :: rest)

def basic_parse_int (l : List Char) : Nat × List Char := parse_int_digits 0 l

def parse_float_intpart : Q → List Char → Q × List Char
  | acc, [] => (acc, [])
  | acc, c :: rest =>
    if isdigit c then
      parse_float_intpart (Q.add (Q.mul acc (Q.ofInt 10)) (Q.ofInt ((c.toNat : Int) - 48))) rest
    else (acc, c :: rest)

def parse_float_fracpart : Q → Q → List Char → Q × List Char
  | acc, _, [] => (acc, [])
  | acc, frac, c :: rest =>
    if isdigit c then
      parse_float_fracpart (Q.add acc (Q.mul (Q.ofInt ((c.toNat : Int) - 48)) frac))
        (Q.div frac (Q.ofInt 10)) rest
    else (acc, c :: rest)

def basic_parse_float (l : List Char) : Q × List Char :=
  let (sign, l) : Q × List Char :=
    match l with
    | '-' :: r => (Q.ofInt (-1), r)
    | '+' :: r => (Q.ofInt 1, r)
    | _ => (Q.ofInt 1, l)
  let (v, l) := parse_float_intpart (Q.ofInt 0) l
  match l with
  | '.' :: r =>
    let (v, l) := parse_float_fracpart v ⟨1, 10⟩ r
    (Q.mul v sign, l)
  | _ => (Q.mul v sign, l)

/-! ### Keyword table -/

def basic_get_keyword_type (w : String) : TokenType :=
  if w = "PRINT" then .TOK_PRINT
  else if w = "INPUT" then .TOK_INPUT
  else if w = "LET" then .TOK_LET
  else if w = "IF" then .TOK_IF
  else if w = "THEN" then .TOK_THEN
  else if w = "ELSE" then .TOK_ELSE
  else if w = "FOR" then .TOK_FOR
  else if w = "TO" then .TOK_TO
  else if w = "STEP" then .TOK_STEP
  else if w = "NEXT" then .TOK_NEXT
  else if w = "GOSUB" then .TOK_GOSUB
  else if w = "RETURN" then .TOK_RETURN
  else if w = "GOTO" then .TOK_GOTO
  else if w = "READ" then .TOK_READ
  else if w = "DATA" then .TOK_DATA
  else if w = "DIM" then .TOK_DIM
  else if w = "END" then .TOK_END
  else if w = "STOP" then .TOK_STOP
  else if w = "REM" then .TOK_REM
  else if w = "AND" then .TOK_AND
  else if w = "OR" then .TOK_OR
  else if w = "NOT" then .TOK_NOT
  else .TOK_EOL

/-! ### Lexer (basic_get_token)

A `none` result models the C function returning `NULL` on an unrecognized
character. String payloads are truncated to 31 characters (`strncpy` with
`MAX_VAR_NAME_LENGTH - 1`).

The identifier branch mirrors the C classification exactly: after the
alphanumeric span is consumed, the code tests `*(*linePtr - 1) == '('`,
i.e. the **last character of the span itself** (not the character that
follows it), so the `TOK_FUNCTION` case is modelled as
`span.getLast? = some '('`. -/

def basic_get_token (l : List Char) : Option (Token × List Char) :=
  let l := basic_skip_whitespace l
  match l with
  | [] => some ({ type := .TOK_EOL }, [])
  | c :: rest =>
    if isdigit c || (c = '.' && (match rest with | d :: _ => isdigit d | [] => false)) then
      let (v, l') := basic_parse_float (c :: rest)
      some ({ type := .TOK_NUMBER, floatValue := v }, l')
    else if c = '"' then
      let content := rest.takeWhile (fun ch => ch ≠ '"')
      let l' := rest.dropWhile (fun ch => ch ≠ '"')
      let l'' := match l' with
        | '"' :: r => r
        | other => other
      some ({ type := .TOK_STRING, stringValue := String.mk (content.take 31) }, l'')
    else if c = '+' then some ({ type := .TOK_PLUS }, rest)
    else if c = '-' then some ({ type := .TOK_MINUS }, rest)
    else if c = '*' then some ({ type := .TOK_MULTIPLY }, rest)
    else if c = '/' then some ({ type := .TOK_DIVIDE }, rest)
    else if c = '=' then some ({ type := .TOK_EQUALS }, rest)
    else if c = '<' then
      match rest with
      | '=' :: r => some ({ type := .TOK_LESS_EQUAL }, r)
      | '>' :: r => some ({ type := .TOK_NOT_EQUAL }, r)
      | _ => some ({ type := .TOK_LESS }, rest)
    else if c = '>' then
      match rest with
      | '=' :: r => some ({ type := .TOK_GREATER_EQUAL }, r)
      | _ => some ({ type := .TOK_GREATER }, rest)
    else if c = '(' then some ({ type := .TOK_LPAREN }, rest)
    else if c = ')' then some ({ type := .TOK_RPAREN }, rest)
    else if c = ',' then some ({ type := .TOK_COMMA }, rest)
    else if c = ';' then some ({ type := .TOK_SEMICOLON }, rest)
    else if c = ':' then some ({ type := .TOK_COLON }, rest)
    else if basic_is_alpha c then
      let span := (c :: rest).takeWhile basic_is_alphanumeric
      let l' := (c :: rest).dropWhile basic_is_alphanumeric
      let up := String.mk ((span.map toupperChar).take 31)
      let kw := basic_get_keyword_type up
      let ty :=
        if kw ≠ .TOK_EOL then kw
        else if up.length = 1 then TokenType.TOK_VARIABLE
        else if span.getLast? = some '(' then TokenType.TOK_FUNCTION
        else TokenType.TOK_VARIABLE
      some ({ type := ty, stringValue := up }, l')
    else none

/-! ### Error state (basic_set_error) -/

/-- `basic_set_error`: records the (code, message) pair; `strncpy` truncates
the message to 255 characters. -/
def basic_set_error (st : BASICState) (errorCode : Nat) (message : String) : BASICState :=
  { st with errorCode := errorCode, errorMessage := String.mk (message.data.take 255) }

@[simp] theorem basic_set_error_forStack (st : BASICState) (c : Nat) (m : String) :
    (basic_set_error st c m).forStack = st.forStack := rfl

@[simp] theorem basic_set_error_gosubStack (st : BASICState) (c : Nat) (m : String) :
    (basic_set_error st c m).gosubStack = st.gosubStack := rfl

@[simp] theorem basic_set_error_variables (st : BASICState) (c : Nat) (m : String) :
    (basic_set_error st c m).variables = st.variables := rfl

@[simp] theorem basic_set_error_programLines (st : BASICState) (c : Nat) (m : String) :
    (basic_set_error st c m).programLines = st.programLines := rfl

@[simp] theorem basic_set_error_errorCode (st : BASICState) (c : Nat) (m : String) :
    (basic_set_error st c m).errorCode = c := rfl

/-! ### Program table (findLine / addLine) -/

/-- `findLine`: walk the ordered list, with the early exit
`current->lineNumber > lineNumber → NULL`. -/
def findLine_go (lineNumber : Nat) : List ProgramLine → Option ProgramLine
  | [] => none
  | pl :: rest =>
    if pl.lineNumber = lineNumber then some pl
    else if pl.lineNumber > lineNumber then none
    else findLine_go lineNumber rest

def findLine (st : BASICState) (lineNumber : Nat) : Option ProgramLine :=
  findLine_go lineNumber st.programLines

/-- `addLine`.  The walk `while (current && current->lineNumber < n)` splits
the list into the traversed prefix (`takeWhile`) and `current`s suffix
(`dropWhile`); the new node is linked in front of `current`.  The
"remove old line" step then executes `previous->next = current->next`,
which unlinks **both** the freshly inserted node and the old node, and
dereferences the NULL `previous` pointer when the match is the head of the
list (modelled as `none`).  Allocation (`basic_malloc`) is the opaque
external allocator and is modelled as always succeeding. -/
def addLine (st : BASICState) (lineNumber : Nat) (lineText : String) :
    Option (Bool × BASICState) :=
  if st.programSize + lineText.length + 100 > 16384 then
    some (false, basic_set_error st ERR_PROGRAM_TOO_LARGE "Program too large")
  else
    let prefixPart := st.programLines.takeWhile (fun pl => pl.lineNumber < lineNumber)
    let suffixPart := st.programLines.dropWhile (fun pl => pl.lineNumber < lineNumber)
    let newSize := st.programSize + lineText.length + 100
    match suffixPart with
    | [] =>
      some (true, { st with programLines := prefixPart ++ [⟨lineNumber, lineText⟩],
                            programSize := newSize })
    | cur :: rest =>
      if cur.lineNumber = lineNumber then
        match prefixPart with
        | [] => none  -- `previous` is NULL and gets dereferenced
        | _ :: _ =>
          some (true, { st with programLines := prefixPart ++ rest,
                                programSize := newSize })
      else
        some (true, { st with programLines := prefixPart ++ ⟨lineNumber, lineText⟩ :: cur :: rest,
                              programSize := newSize })

/-! ### Variable store -/

/-- `basic_find_variable`: first entry whose name matches exactly. -/
def basic_find_variable (st : BASICState) (name : String) : Option Variable :=
  st.variables.find? (fun v => v.name = name)

/-- Update the first variable whose name matches (the C code writes through
the pointer returned by `basic_find_variable`). -/
def updateFirstVariable (name : String) (f : Variable → Variable) :
    List Variable → List Variable
  | [] => []
  | v :: vs => if v.name = name then f v :: vs else v :: updateFirstVariable name f vs

/-- `basic_val` (`atof`): permissive string-to-number conversion — optional
whitespace, sign, digits, fraction, optional decimal exponent. -/
def atof_isspace (c : Char) : Bool :=
  c = ' ' || c = '\t' || c = '\n' || c = '\x0b' || c = '\x0c' || c = '\r'

def basic_val (s : String) : Q :=
  let l := s.data.dropWhile atof_isspace
  let (sign, l) : Q × List Char :=
    match l with
    | '-' :: r => (Q.ofInt (-1), r)
    | '+' :: r => (Q.ofInt 1, r)
    | _ => (Q.ofInt 1, l)
  let (ip, l) := parse_float_intpart (Q.ofInt 0) l
  let (v, l) :=
    match l with
    | '.' :: r => parse_float_fracpart ip ⟨1, 10⟩ r
    | _ => (ip, l)
  match l with
  | 'e' :: r | 'E' :: r =>
    let (esign, r) : Int × List Char :=
      match r with
      | '-' :: r' => (-1, r')
      | '+' :: r' => (1, r')
      | _ => (1, r)
    let (e, _) := basic_parse_int r
    Q.mul (Q.mul sign v) (if 0 ≤ esign then Q.ofInt ((10 : Int) ^ e) else ⟨1, 10 ^ e⟩)
  | _ => Q.mul sign v

/-- `basic_get_variable_value`: numeric scalars read directly, string
scalars are coerced with `basic_val`, arrays are a type mismatch,
a missing variable is an undefined-variable error (value 0 in all error
cases). -/
def basic_get_variable_value (st : BASICState) (varName : String) : Q × BASICState :=
  match basic_find_variable st varName with
  | none => (Q.ofInt 0, basic_set_error st ERR_UNDEFINED_VARIABLE "Undefined variable")
  | some v =>
    if v.type = .VAR_NUMERIC then (v.value.asNum, st)
    else if v.type = .VAR_STRING then (basic_val v.value.asStr, st)
    else (Q.ofInt 0, basic_set_error st ERR_TYPE_MISMATCH "Variable is not numeric")

/-- `basic_set_variable_value`: create a numeric variable on first
assignment (capacity 256, exceeding is an out-of-memory error and the
write is dropped); writing to an existing non-numeric variable silently
does nothing. -/
def basic_set_variable_value (st : BASICState) (varName : String) (value : Q) :
    BASICState :=
  match basic_find_variable st varName with
  | some var =>
    if var.type = .VAR_NUMERIC then
      { st with «variables» :=
          updateFirstVariable varName (fun w => { w with value := .num value }) st.variables }
    else st
  | none =>
    if st.variables.length ≥ 256 then
      basic_set_error st ERR_OUT_OF_MEMORY "Too many variables"
    else
      { st with «variables» :=
          st.variables ++ [{ name := String.mk (varName.data.take 31), type := .VAR_NUMERIC,
                             value := .num value }] }

/-- `basic_create_array`: appends a numeric-array variable (no duplicate
check); copies at most 3 extents, records `size := dimCount`, and the
backing store is `calloc(1000, sizeof(double))`, i.e. 1000 zeros. -/
def basic_create_array (st : BASICState) (name : String) (dims : List Nat)
    (dimCount : Nat) : Bool × BASICState :=
  if st.variables.length ≥ 256 then
    (false, basic_set_error st ERR_OUT_OF_MEMORY "Too many variables")
  else
    (true, { st with «variables» :=
        st.variables ++ [{ name := String.mk (name.data.take 31), type := .VAR_ARRAY_NUMERIC,
                           dimensions := dims.take (min dimCount 3), size := dimCount,
                           value := .numArray (List.replicate 1000 (Q.ofInt 0)) }] })

/-! ### Fixed 6-decimal formatting (`printf("%.6f", v)`)

Rounding differences between round-half-up on exact rationals and printf's behaviour on
the exact binary double can only appear at ties below 10⁻⁶, which no value
in this development produces. -/

def fmt6 (q : Q) : String :=
  let neg := Q.blt q (Q.ofInt 0)
  let a : Q := if neg then Q.neg q else q
  let scaled : Nat := (Q.add (Q.mul a (Q.ofInt 1000000)) ⟨1, 2⟩).floorInt.toNat
  let ip := scaled / 1000000
  let fp := scaled % 1000000
  let fs := toString fp
  let pad := String.mk (List.replicate (6 - fs.length) '0')
  (if neg then "-" else "") ++ toString ip ++ "." ++ pad ++ fs

/-! ### Expression evaluator

`basic_evaluate_expression` / `_term` / `_factor` / `_function`, with the
`while` loops of expression and term split into explicit tail-recursive
helpers.  All recursion is on `fuel`; a `none` result means the C code
would recurse or loop beyond the given fuel (or hit an external call:
`rand()` for RND, libm for SQR/SIN/COS/TAN/LOG/EXP, which no claim
exercises).  Results are `(value, state, rest-of-line)`. -/

/-- The builtin dispatch chain at the end of `basic_evaluate_function`.
RND calls the C library's `rand()` and SQR/SIN/COS/TAN/LOG/EXP call libm —
external effects outside the modelled scope (`none`); no claim exercises
them. -/
def basic_apply_function (st : BASICState) (functionName : String) (argument : Q) :
    Option (Q × BASICState) :=
  if functionName = "ABS" then some (Q.abs argument, st)
  else if functionName = "RND" then none       -- external rand()
  else if functionName = "SQR" then none       -- libm sqrt
  else if functionName = "SIN" then none       -- libm sin
  else if functionName = "COS" then none       -- libm cos
  else if functionName = "TAN" then none       -- libm tan
  else if functionName = "LOG" then none       -- libm log
  else if functionName = "EXP" then none       -- libm exp
  else if functionName = "INT" then some (Q.ofInt argument.floorInt, st)
  else if functionName = "SGN" then
    some (if Q.blt (Q.ofInt 0) argument then Q.ofInt 1
          else if Q.blt argument (Q.ofInt 0) then Q.ofInt (-1) else Q.ofInt 0, st)
  else some (Q.ofInt 0, basic_set_error st ERR_SYNTAX "Unknown function")

mutual

def basic_evaluate_expression : Nat → BASICState → List Char →
    Option (Q × BASICState × List Char)
  | 0, _, _ => none
  | fuel + 1, st, l =>
    match basic_evaluate_term fuel st l with
    | none => none
    | some (left, st, l) => expression_loop fuel left st l

def expression_loop : Nat → Q → BASICState → List Char →
    Option (Q × BASICState × List Char)
  | 0, _, _, _ => none
  | fuel + 1, left, st, l =>
    let l := basic_skip_whitespace l
    match l with
    | '+' :: r =>
      match basic_evaluate_term fuel st r with
      | none => none
      | some (t, st, l') => expression_loop fuel (Q.add left t) st l'
    | '-' :: r =>
      match basic_evaluate_term fuel st r with
      | none => none
      | some (t, st, l') => expression_loop fuel (Q.sub left t) st l'
    | '=' :: r =>
      match basic_evaluate_term fuel st r with
      | none => none
      | some (t, st, l') => expression_loop fuel (if Q.beq left t then Q.ofInt 1 else Q.ofInt 0) st l'
    | '<' :: '=' :: r =>
      match basic_evaluate_term fuel st r with
      | none => none
      | some (t, st, l') => expression_loop fuel (if Q.ble left t then Q.ofInt 1 else Q.ofInt 0) st l'
    | '<' :: '>' :: r =>
      match basic_evaluate_term fuel st r with
      | none => none
      | some (t, st, l') => expression_loop fuel (if Q.beq left t then Q.ofInt 0 else Q.ofInt 1) st l'
    | '<' :: r =>
      match basic_evaluate_term fuel st r with
      | none => none
      | some (t, st, l') => expression_loop fuel (if Q.blt left t then Q.ofInt 1 else Q.ofInt 0) st l'
    | '>' :: '=' :: r =>
      match basic_evaluate_term fuel st r with
      | none => none
      | some (t, st, l') => expression_loop fuel (if Q.ble t left then Q.ofInt 1 else Q.ofInt 0) st l'
    | '>' :: r =>
      match basic_evaluate_term fuel st r with
      | none => none
      | some (t, st, l') => expression_loop fuel (if Q.blt t left then Q.ofInt 1 else Q.ofInt 0) st l'
    | _ => some (left, st, l)

def basic_evaluate_term : Nat → BASICState → List Char →
    Option (Q × BASICState × List Char)
  | 0, _, _ => none
  | fuel + 1, st, l =>
    match basic_evaluate_factor fuel st l with
    | none => none
    | some (left, st, l) => term_loop fuel left st l

def term_loop : Nat → Q → BASICState → List Char →
    Option (Q × BASICState × List Char)
  | 0, _, _, _ => none
  | fuel + 1, left, st, l =>
    let l := basic_skip_whitespace l
    match l with
    | '*' :: r =>
      match basic_evaluate_factor fuel st r with
      | none => none
      | some (f, st, l') => term_loop fuel (Q.mul left f) st l'
    | '/' :: r =>
      match basic_evaluate_factor fuel st r with
      | none => none
      | some (right, st, l') =>
        if right.isZero then
          -- division by zero: error is recorded and the term returns 0.0
          some (Q.ofInt 0, basic_set_error st ERR_DIVISION_BY_ZERO "Division by zero", l')
        else term_loop fuel (Q.div left right) st l'
    | _ => some (left, st, l)

def basic_evaluate_factor : Nat → BASICState → List Char →
    Option (Q × BASICState × List Char)
  | 0, _, _ => none
  | fuel + 1, st, l =>
    let l := basic_skip_whitespace l
    let (sign, l) : Q × List Char :=
      match l with
      | '-' :: r => (Q.ofInt (-1), r)
      | _ => (Q.ofInt 1, l)
    let l := match l with
      | '+' :: r => r
      | other => other
    let l := basic_skip_whitespace l
    match l with
    | '(' :: r =>
      match basic_evaluate_expression fuel st r with
      | none => none
      | some (v, st, l') =>
        match l' with
        | ')' :: r' => some (Q.mul v sign, st, r')
        | _ => some (Q.ofInt 0, basic_set_error st ERR_SYNTAX "Missing closing parenthesis", l')
    | _ =>
      match l with
      | c :: _ =>
        if isdigit c || c = '.' then
          let (v, l') := basic_parse_float l
          some (Q.mul v sign, st, l')
        else if basic_is_alpha c then
          match basic_get_token l with
          | none => none
          | some (tok, l') =>
            if tok.type = .TOK_VARIABLE then
              let (v, st) := basic_get_variable_value st tok.stringValue
              some (Q.mul v sign, st, l')
            else if tok.type = .TOK_FUNCTION then
              match basic_evaluate_function fuel st tok.stringValue l' with
              | none => none
              | some (v, st, l'') => some (Q.mul v sign, st, l'')
            else
              some (Q.ofInt 0, basic_set_error st ERR_SYNTAX "Expected variable or function", l')
        else
          some (Q.ofInt 0, basic_set_error st ERR_SYNTAX "Expected number, variable, or expression", l)
      | [] =>
        some (Q.ofInt 0, basic_set_error st ERR_SYNTAX "Expected number, variable, or expression", l)

def basic_evaluate_function : Nat → BASICState → String → List Char →
    Option (Q × BASICState × List Char)
  | 0, _, _, _ => none
  | fuel + 1, st, functionName, l =>
    let l := basic_skip_whitespace l
    match l with
    | '(' :: r =>
      match basic_evaluate_expression fuel st r with
      | none => none
      | some (argument, st, l') =>
        if st.errorCode ≠ ERR_NONE then some (Q.ofInt 0, st, l')
        else
          let l' := basic_skip_whitespace l'
          match l' with
          | ')' :: r' =>
            match basic_apply_function st functionName argument with
            | none => none
            | some (v, st) => some (v, st, r')
          | _ => some (Q.ofInt 0, basic_set_error st ERR_SYNTAX "Expected closing parenthesis", l')
    | _ => some (Q.ofInt 0, basic_set_error st ERR_SYNTAX "Expected opening parenthesis", l)

end

/-! ### Statement handlers

Each handler returns `(success, state, console-output)`; `none` again marks
unmodelled external behaviour or divergence.  Console output produced
before a failing item (the C code writes directly to stdout) is part of
the returned output. -/

/-- `basic_handle_print`, with the statement loop made explicit.
`newline` starts true and is cleared by **any** semicolon; `,` emits the
five-space zone separator; a bare string literal is echoed; anything else
is an expression printed with `%.6f`. -/
def basic_handle_print_loop : Nat → BASICState → List Char → Bool → String →
    Option (Bool × BASICState × String)
  | 0, _, _, _, _ => none
  | fuel + 1, st, l, newline, out =>
    let l := basic_skip_whitespace l
    match l with
    | [] => some (true, st, if newline then out ++ "\n" else out)
    | c :: rest =>
      if c = '\n' || c = ':' then
        some (true, st, if newline then out ++ "\n" else out)
      else if c = ',' then
        basic_handle_print_loop fuel st rest newline (out ++ "     ")
      else if c = ';' then
        basic_handle_print_loop fuel st rest false out
      else if c = '"' then
        let content := rest.takeWhile (fun ch => ch ≠ '"')
        let l' := rest.dropWhile (fun ch => ch ≠ '"')
        let l'' := match l' with
          | '"' :: r => r
          | other => other
        basic_handle_print_loop fuel st l'' newline (out ++ String.mk content)
      else
        match basic_evaluate_expression fuel st l with
        | none => none
        | some (v, st, l') =>
          if st.errorCode ≠ ERR_NONE then some (false, st, out)
          else basic_handle_print_loop fuel st l' newline (out ++ fmt6 v)

def basic_handle_print (fuel : Nat) (st : BASICState) (l : List Char) :
    Option (Bool × BASICState × String) :=
  basic_handle_print_loop fuel st l true ""

/-- `basic_handle_input` blocks on a console read (`fgets` on stdin), an
external interface out of the modelled scope; no claim exercises INPUT. -/
def basic_handle_input (_fuel : Nat) (_st : BASICState) (_l : List Char) :
    Option (Bool × BASICState × String) :=
  none

/-- `basic_handle_let`: `NAME = expression`.  The target name is uppercased
and truncated to 31 characters; a non-alphabetic start or a missing `=` is
a syntax error; the assignment is dropped if the expression left an error. -/
def basic_handle_let (fuel : Nat) (st : BASICState) (l : List Char) :
    Option (Bool × BASICState × String) :=
  let l := basic_skip_whitespace l
  match l with
  | c :: _ =>
    if basic_is_alpha c then
      let nameChars := l.takeWhile basic_is_alphanumeric
      let l := l.dropWhile basic_is_alphanumeric
      let varName := String.mk ((nameChars.map toupperChar).take 31)
      let l := basic_skip_whitespace l
      match l with
      | '=' :: r =>
        match basic_evaluate_expression fuel st r with
        | none => none
        | some (v, st, _) =>
          if st.errorCode ≠ ERR_NONE then some (false, st, "")
          else some (true, basic_set_variable_value st varName v, "")
      | _ => some (false, basic_set_error st ERR_SYNTAX "Expected equals sign", "")
    else some (false, basic_set_error st ERR_SYNTAX "Expected variable name", "")
  | [] => some (false, basic_set_error st ERR_SYNTAX "Expected variable name", "")

/-- The optional STEP clause of FOR: if an alphabetic token follows, it is
consumed; if it is STEP the step expression is evaluated (and discarded —
nothing stores it). -/
def basic_handle_for_step (fuel : Nat) (st : BASICState) (l : List Char) :
    Option (BASICState × List Char) :=
  match l with
  | c' :: _ =>
    if basic_is_alpha c' then
      match basic_get_token l with
      | none => none
      | some (tok', l') =>
        if tok'.type = .TOK_STEP then
          match basic_evaluate_expression fuel st l' with
          | none => none
          | some (_step, st, l'') => some (st, l'')
        else some (st, l')
    else some (st, l)
  | [] => some (st, l)

/-- `basic_handle_for`: `var = initial TO final [STEP step]`.  The handler
assigns the initial value, checks the 32-frame bound and pushes **only the
current line number** (the C `forStack` is `int[32]`); `final` and `step`
are evaluated but not stored anywhere. -/
def basic_handle_for (fuel : Nat) (st : BASICState) (l : List Char) :
    Option (Bool × BASICState × String) :=
  let l := basic_skip_whitespace l
  match l with
  | c :: _ =>
    if basic_is_alpha c then
      let nameChars := l.takeWhile basic_is_alphanumeric
      let l := l.dropWhile basic_is_alphanumeric
      let varName := String.mk ((nameChars.map toupperChar).take 31)
      let l := basic_skip_whitespace l
      match l with
      | '=' :: r =>
        match basic_evaluate_expression fuel st r with
        | none => none
        | some (initial, st, l) =>
          if st.errorCode ≠ ERR_NONE then some (false, st, "")
          else
            let l := basic_skip_whitespace l
            match basic_get_token l with
            | none => none  -- C dereferences the NULL token pointer
            | some (tok, l) =>
              if tok.type = .TOK_TO then
                match basic_evaluate_expression fuel st l with
                | none => none
                | some (_final, st, l) =>
                  if st.errorCode ≠ ERR_NONE then some (false, st, "")
                  else
                    match basic_handle_for_step fuel st (basic_skip_whitespace l) with
                    | none => none
                    | some (st, _) =>
                      if st.errorCode ≠ ERR_NONE then some (false, st, "")
                      else
                        let st := basic_set_variable_value st varName initial
                        if st.forStack.length ≥ 32 then
                          some (false, basic_set_error st ERR_STACK_OVERFLOW
                            "FOR loop stack overflow", "")
                        else
                          some (true,
                            { st with forStack := st.currentLineNumber :: st.forStack }, "")
              else some (false, basic_set_error st ERR_SYNTAX "Expected TO", "")
      | _ => some (false, basic_set_error st ERR_SYNTAX "Expected equals sign", "")
    else some (false, basic_set_error st ERR_SYNTAX "Expected variable name", "")
  | [] => some (false, basic_set_error st ERR_SYNTAX "Expected variable name", "")

/-- `basic_handle_next`: consumes an optional variable name (ignored), then
"just pops the stack (simplified implementation)": no loop-condition
re-check, no increment, no jump back to the FOR line. -/
def basic_handle_next (st : BASICState) (_l : List Char) : Bool × BASICState :=
  match st.forStack with
  | [] => (false, basic_set_error st ERR_NEXT_WITHOUT_FOR "NEXT without FOR")
  | _ :: rest => (true, { st with forStack := rest })

/-- `basic_handle_goto_line`: resolves the target line but, per the source
comment, "just return[s] success" without redirecting the run loop. -/
def basic_handle_goto_line (st : BASICState) (lineNumber : Nat) : Bool × BASICState :=
  match findLine st lineNumber with
  | none => (false, basic_set_error st ERR_LINE_NOT_FOUND "Line not found")
  | some _ => (true, st)

/-- `basic_handle_gosub`: note `basic_parse_int` is called on the cursor
immediately after the GOSUB keyword, without skipping the blank, so the
digits are never consumed and the target parses as 0. -/
def basic_handle_gosub (st : BASICState) (l : List Char) : Bool × BASICState :=
  let (lineNumber, _) := basic_parse_int l
  if st.errorCode ≠ ERR_NONE then (false, st)
  else if st.gosubStack.length ≥ 32 then
    (false, basic_set_error st ERR_STACK_OVERFLOW "GOSUB stack overflow")
  else
    basic_handle_goto_line
      { st with gosubStack := st.currentLineNumber :: st.gosubStack } lineNumber

/-- `basic_handle_return`: an empty stack is reported with the **syntax**
error code and the message "RETURN without GOSUB". -/
def basic_handle_return (st : BASICState) (_l : List Char) : Bool × BASICState :=
  match st.gosubStack with
  | [] => (false, basic_set_error st ERR_SYNTAX "RETURN without GOSUB")
  | returnLine :: rest => basic_handle_goto_line { st with gosubStack := rest } returnLine

/-- `basic_handle_goto`: same missing whitespace skip as GOSUB. -/
def basic_handle_goto (st : BASICState) (l : List Char) : Bool × BASICState :=
  let (lineNumber, _) := basic_parse_int l
  if st.errorCode ≠ ERR_NONE then (false, st)
  else basic_handle_goto_line st lineNumber

/-- `basic_read_data_value` is stubbed in the source: it always yields 0. -/
def basic_read_data_value (st : BASICState) : Q × BASICState := (Q.ofInt 0, st)

/-- `basic_handle_read`: assigns the stubbed DATA value (0) to each listed
variable.  A list item that is neither alphabetic nor a comma/terminator
makes the C loop spin forever (fuel exhaustion, `none`). -/
def basic_handle_read_loop : Nat → BASICState → List Char →
    Option (Bool × BASICState × String)
  | 0, _, _ => none
  | fuel + 1, st, l =>
    let l := basic_skip_whitespace l
    match l with
    | [] => some (true, st, "")
    | c :: _ =>
      if c = '\n' || c = ':' then some (true, st, "")
      else if basic_is_alpha c then
        let nameChars := l.takeWhile basic_is_alphanumeric
        let l' := l.dropWhile basic_is_alphanumeric
        let varName := String.mk ((nameChars.map toupperChar).take 31)
        let (value, st) := basic_read_data_value st
        if st.errorCode ≠ ERR_NONE then some (false, st, "")
        else
          let st := basic_set_variable_value st varName value
          let l' := match l' with
            | ',' :: r => r
            | other => other
          basic_handle_read_loop fuel st l'
      else
        let l := match l with
          | ',' :: r => r
          | other => other
        basic_handle_read_loop fuel st l

def basic_handle_read (fuel : Nat) (st : BASICState) (l : List Char) :
    Option (Bool × BASICState × String) :=
  basic_handle_read_loop fuel st l

/-- `basic_handle_data` skips the values entirely (DATA is not stored). -/
def basic_handle_data (st : BASICState) (_l : List Char) :
    Bool × BASICState :=
  (true, st)

/-- Dimension list of a DIM item: `while (**linePtr && **linePtr != ')')`.
Each pass stores one extent (`dimensions[dimCount++]`), checks for a stale
error, and then errors out as soon as `dimCount` has reached 3 — so at most
two extents can actually be declared.  A non-digit, non-comma character
makes the loop spin (fuel). -/
def dim_parse_dims : Nat → BASICState → List Char → List Nat → Nat →
    Option (Bool × BASICState × List Nat × Nat × List Char)
  | 0, _, _, _, _ => none
  | fuel + 1, st, l, dims, dimCount =>
    match l with
    | [] => some (true, st, dims, dimCount, [])
    | ')' :: _ => some (true, st, dims, dimCount, l)
    | _ =>
      let (d, l) := basic_parse_int l
      if st.errorCode ≠ ERR_NONE then some (false, st, dims ++ [d], dimCount + 1, l)
      else if dimCount + 1 ≥ 3 then
        some (false, basic_set_error st ERR_SYNTAX "Too many dimensions",
          dims ++ [d], dimCount + 1, l)
      else
        let l := basic_skip_whitespace l
        let l := match l with
          | ',' :: r => r
          | other => other
        dim_parse_dims fuel st l (dims ++ [d]) (dimCount + 1)

/-- `basic_handle_dim`: for each `NAME(d1[,d2[,d3]])` item, parse the
extents and create the array. -/
def basic_handle_dim_loop : Nat → BASICState → List Char →
    Option (Bool × BASICState × String)
  | 0, _, _ => none
  | fuel + 1, st, l =>
    let l := basic_skip_whitespace l
    match l with
    | [] => some (true, st, "")
    | c :: _ =>
      if c = '\n' || c = ':' then some (true, st, "")
      else
        let afterItem : Option (Bool × BASICState × List Char) :=
          if basic_is_alpha c then
            let nameChars := l.takeWhile basic_is_alphanumeric
            let l := l.dropWhile basic_is_alphanumeric
            let varName := String.mk ((nameChars.map toupperChar).take 31)
            let l := basic_skip_whitespace l
            match l with
            | '(' :: r =>
              match dim_parse_dims fuel st r [] 0 with
              | none => none
              | some (ok, st, dims, dimCount, l) =>
                if ok then
                  let l := match l with
                    | ')' :: r' => r'
                    | other => other
                  let (created, st) := basic_create_array st varName dims dimCount
                  if created then some (true, st, l) else some (false, st, l)
                else some (false, st, l)
            | _ => some (false, basic_set_error st ERR_SYNTAX "Expected opening parenthesis", l)
          else some (true, st, l)
        match afterItem with
        | none => none
        | some (ok, st, l) =>
          if ok then
            let l := match l with
              | ',' :: r => r
              | other => other
            basic_handle_dim_loop fuel st l
          else some (false, st, "")

def basic_handle_dim (fuel : Nat) (st : BASICState) (l : List Char) :
    Option (Bool × BASICState × String) :=
  basic_handle_dim_loop fuel st l

/-- `basic_handle_end` / `basic_handle_stop`: clear the running flag. -/
def basic_handle_end (st : BASICState) (_l : List Char) : Bool × BASICState :=
  (true, { st with running := false })

def basic_handle_stop (st : BASICState) (_l : List Char) : Bool × BASICState :=
  (true, { st with running := false })

/-- `basic_handle_rem`: no-op. -/
def basic_handle_rem (st : BASICState) (_l : List Char) : Bool × BASICState :=
  (true, st)

/-- Lift a handler that cannot produce output or diverge. -/
def liftHandler (r : Bool × BASICState) : Option (Bool × BASICState × String) :=
  some (r.1, r.2, "")

/-! ### Statement executor (`executeStatement`) and IF

The two are mutually recursive (IF executes the rest of its own line).
For an implicit LET (a line starting with a bare variable), the C code
rewinds the cursor by `strlen(token->stringValue)` — the length of the
uppercased, 31-character-truncated name — from the post-token position. -/

mutual

def executeStatement : Nat → BASICState → List Char →
    Option (Bool × BASICState × String)
  | 0, _, _ => none
  | fuel + 1, st, l =>
    let l := basic_skip_whitespace l
    match l with
    | [] => some (true, st, "")
    | _ =>
      match basic_get_token l with
      | none => some (false, basic_set_error st ERR_SYNTAX "Invalid token", "")
      | some (tok, l') =>
        match tok.type with
        | .TOK_PRINT => basic_handle_print fuel st l'
        | .TOK_INPUT => basic_handle_input fuel st l'
        | .TOK_LET => basic_handle_let fuel st l'
        | .TOK_IF => basic_handle_if fuel st l'
        | .TOK_FOR => basic_handle_for fuel st l'
        | .TOK_NEXT => liftHandler (basic_handle_next st l')
        | .TOK_GOSUB => liftHandler (basic_handle_gosub st l')
        | .TOK_RETURN => liftHandler (basic_handle_return st l')
        | .TOK_GOTO => liftHandler (basic_handle_goto st l')
        | .TOK_READ => basic_handle_read fuel st l'
        | .TOK_DATA => liftHandler (basic_handle_data st l')
        | .TOK_DIM => basic_handle_dim fuel st l'
        | .TOK_END => liftHandler (basic_handle_end st l')
        | .TOK_STOP => liftHandler (basic_handle_stop st l')
        | .TOK_REM => liftHandler (basic_handle_rem st l')
        | .TOK_VARIABLE =>
          -- rewind by strlen(stringValue) = min (span length) 31, then LET
          let spanLen := (l.takeWhile basic_is_alphanumeric).length
          basic_handle_let fuel st (l.drop (spanLen - min spanLen 31))
        | _ => some (false, basic_set_error st ERR_SYNTAX "Unrecognized statement", "")

def basic_handle_if : Nat → BASICState → List Char →
    Option (Bool × BASICState × String)
  | 0, _, _ => none
  | fuel + 1, st, l =>
    match basic_evaluate_expression fuel st l with
    | none => none
    | some (condition, st, l') =>
      if st.errorCode ≠ ERR_NONE then some (false, st, "")
      else
        let l' := basic_skip_whitespace l'
        match l' with
        | [] => some (false, basic_set_error st ERR_SYNTAX "Expected THEN", "")
        | _ =>
          match basic_get_token l' with
          | none => none  -- C dereferences the NULL token pointer
          | some (tok, l'') =>
            if tok.type = .TOK_THEN then
              if condition.isZero then some (true, st, "")
              else executeStatement fuel st l''
            else some (false, basic_set_error st ERR_SYNTAX "Expected THEN", "")

end

/-! ### Session entry points -/

/-- `basic_init`: the fully reset interpreter state (the C function
overwrites every field of the passed state). -/
def basic_init : BASICState :=
  { programLines := [], currentLineNumber := 0, programSize := 0,
    «variables» := [], running := false, errorCode := ERR_NONE,
    errorMessage := "No error", forStack := [], gosubStack := [] }

/-- `basic_execute_line`: one ad-hoc statement against the live session. -/
def basic_execute_line (fuel : Nat) (st : BASICState) (lineText : String) :
    Option (Bool × BASICState × String) :=
  executeStatement fuel st lineText.data

/-- Program-text parsing loop of `basic_load_program`: skip line breaks,
demand a leading digit, parse the line number, skip blanks, copy the rest
of the line (at most 255 characters — longer is a "Line too long" error
reported, oddly, with `ERR_LINE_NOT_FOUND`), and insert it with `addLine`. -/
def basic_load_program_loop : Nat → BASICState → List Char →
    Option (Bool × BASICState)
  | 0, _, _ => none
  | fuel + 1, st, ptr =>
    let ptr := ptr.dropWhile (fun c => c = '\n' || c = '\r')
    match ptr with
    | [] => some (true, st)
    | c :: _ =>
      if ¬ isdigit c then
        some (false, basic_set_error st ERR_SYNTAX "Expected line number")
      else
        let (lineNumber, ptr) := basic_parse_int ptr
        let ptr := ptr.dropWhile isBlank
        let content := ptr.takeWhile (fun ch => ch ≠ '\n' && ch ≠ '\r')
        let ptr := ptr.dropWhile (fun ch => ch ≠ '\n' && ch ≠ '\r')
        if content.length > 255 then
          some (false, basic_set_error st ERR_LINE_NOT_FOUND "Line too long")
        else
          match addLine st lineNumber (String.mk content) with
          | none => none
          | some (ok, st) =>
            if ok then basic_load_program_loop fuel st ptr
            else some (false, st)

/-- `basic_load_program`: resets the session (`basic_init`) and parses the
program text (the previous state is discarded wholesale). -/
def basic_load_program (fuel : Nat) (programText : String) :
    Option (Bool × BASICState) :=
  basic_load_program_loop fuel basic_init programText.data

/-- The run loop of `basic_run_program`: `while (running && currentLine)`,
executing each line and then moving to the **next list node** — the jump
handlers never change this cursor. -/
def basic_run_program_loop (fuel : Nat) : BASICState → List ProgramLine →
    Option (BASICState × String)
  | st, [] => some (st, "")
  | st, line :: rest =>
    if st.running then
      let st := { st with currentLineNumber := line.lineNumber }
      match executeStatement fuel st line.lineText.data with
      | none => none
      | some (ok, st, out) =>
        if ok then
          match basic_run_program_loop fuel st rest with
          | none => none
          | some (stFinal, out') => some (stFinal, out ++ out')
        else some (st, out)
    else some (st, "")

/-- `basic_run_program`: executes from the first stored line; returns
whether the run ended with `errorCode == ERR_NONE`. -/
def basic_run_program (fuel : Nat) (st : BASICState) :
    Option (Bool × BASICState × String) :=
  if st.programLines = [] then
    some (false, basic_set_error st ERR_SYNTAX "No program loaded", "")
  else
    let st := { st with running := true, currentLineNumber := 0 }
    match basic_run_program_loop fuel st st.programLines with
    | none => none
    | some (st, out) =>
      let st := { st with running := false }
      some (st.errorCode = ERR_NONE, st, out)

/-! ### The process-wide global state and NULL-pointer resolution

`static BASICState globalState` lives at heap address 0; every public
entry point substitutes `&globalState` for a NULL state pointer
(`if (!state) state = &globalState;`). -/

def resolvePtr (p : Option Nat) : Nat := p.getD 0

def basic_init_api (h : Nat → BASICState) (p : Option Nat) : Nat → BASICState :=
  Function.update h (resolvePtr p) basic_init

def basic_set_error_api (h : Nat → BASICState) (p : Option Nat)
    (errorCode : Nat) (message : String) : Nat → BASICState :=
  Function.update h (resolvePtr p) (basic_set_error (h (resolvePtr p)) errorCode message)

def basic_execute_line_api (fuel : Nat) (h : Nat → BASICState) (p : Option Nat)
    (lineText : String) : Option ((Nat → BASICState) × Bool × String) :=
  let a := resolvePtr p
  (basic_execute_line fuel (h a) lineText).map
    (fun r => (Function.update h a r.2.1, r.1, r.2.2))

def basic_load_program_api (fuel : Nat) (h : Nat → BASICState) (p : Option Nat)
    (programText : String) : Option ((Nat → BASICState) × Bool) :=
  let a := resolvePtr p
  (basic_load_program fuel programText).map
    (fun r => (Function.update h a r.2, r.1))

def basic_run_program_api (fuel : Nat) (h : Nat → BASICState) (p : Option Nat) :
    Option ((Nat → BASICState) × Bool × String) :=
  let a := resolvePtr p
  (basic_run_program fuel (h a)).map
    (fun r => (Function.update h a r.2.1, r.1, r.2.2))

/-! ### Control-stack preservation lemmas

The expression evaluator and most statement handlers never touch the two
control stacks; FOR/GOSUB push only below the 32-frame bound and
NEXT/RETURN only pop.  These lemmas drive the reachable-state invariant
of claim C5. -/

/-- The two control stacks of `st'` are those of `st`. -/
def StacksEq (st st' : BASICState) : Prop :=
  st'.forStack = st.forStack ∧ st'.gosubStack = st.gosubStack

theorem StacksEq.refl (st : BASICState) : StacksEq st st := ⟨rfl, rfl⟩

theorem StacksEq.trans {a b c : BASICState} (h1 : StacksEq a b) (h2 : StacksEq b c) :
    StacksEq a c := ⟨h2.1.trans h1.1, h2.2.trans h1.2⟩

theorem stacksEq_set_error (st : BASICState) (c : Nat) (m : String) :
    StacksEq st (basic_set_error st c m) := ⟨rfl, rfl⟩

theorem stacksEq_set_variable (st : BASICState) (n : String) (v : Q) :
    StacksEq st (basic_set_variable_value st n v) := by
  unfold basic_set_variable_value
  constructor <;> (split <;> try split) <;> rfl

theorem stacksEq_get_variable (st : BASICState) (n : String) :
    StacksEq st (basic_get_variable_value st n).2 := by
  unfold basic_get_variable_value
  constructor <;> (split <;> try split) <;> (try split) <;> rfl

theorem stacksEq_create_array (st : BASICState) (n : String) (dims : List Nat)
    (dimCount : Nat) : StacksEq st (basic_create_array st n dims dimCount).2 := by
  unfold basic_create_array
  constructor <;> split <;> rfl

theorem stacksEq_apply_function (st : BASICState) (f : String) (a : Q) :
    ∀ r, basic_apply_function st f a = some r → StacksEq st r.2 := by
  intro r h
  delta basic_apply_function at h
  by_cases h1 : f = "ABS"
  · rw [if_pos h1] at h; cases h; exact StacksEq.refl st
  · rw [if_neg h1] at h
    by_cases h2 : f = "RND"
    · rw [if_pos h2] at h; exact Option.noConfusion h
    · rw [if_neg h2] at h
      by_cases h3 : f = "SQR"
      · rw [if_pos h3] at h; exact Option.noConfusion h
      · rw [if_neg h3] at h
        by_cases h4 : f = "SIN"
        · rw [if_pos h4] at h; exact Option.noConfusion h
        · rw [if_neg h4] at h
          by_cases h5 : f = "COS"
          · rw [if_pos h5] at h; exact Option.noConfusion h
          · rw [if_neg h5] at h
            by_cases h6 : f = "TAN"
            · rw [if_pos h6] at h; exact Option.noConfusion h
            · rw [if_neg h6] at h
              by_cases h7 : f = "LOG"
              · rw [if_pos h7] at h; exact Option.noConfusion h
              · rw [if_neg h7] at h
                by_cases h8 : f = "EXP"
                · rw [if_pos h8] at h; exact Option.noConfusion h
                · rw [if_neg h8] at h
                  by_cases h9 : f = "INT"
                  · rw [if_pos h9] at h; cases h; exact StacksEq.refl st
                  · rw [if_neg h9] at h
                    by_cases h10 : f = "SGN"
                    · rw [if_pos h10] at h; cases h; exact StacksEq.refl st
                    · rw [if_neg h10] at h; cases h
                      exact stacksEq_set_error _ _ _

set_option maxHeartbeats 1000000 in
/-- The whole expression-evaluator block leaves both control stacks
untouched (its only state effects are error reporting). -/
theorem eval_block_stacksEq (fuel : Nat) :
    (∀ st l r, basic_evaluate_expression fuel st l = some r → StacksEq st r.2.1) ∧
    (∀ q st l r, expression_loop fuel q st l = some r → StacksEq st r.2.1) ∧
    (∀ st l r, basic_evaluate_term fuel st l = some r → StacksEq st r.2.1) ∧
    (∀ q st l r, term_loop fuel q st l = some r → StacksEq st r.2.1) ∧
    (∀ st l r, basic_evaluate_factor fuel st l = some r → StacksEq st r.2.1) ∧
    (∀ st f l r, basic_evaluate_function fuel st f l = some r → StacksEq st r.2.1) := by
  induction fuel with
  | zero =>
    refine ⟨fun st l r h => ?_, fun q st l r h => ?_, fun st l r h => ?_,
      fun q st l r h => ?_, fun st l r h => ?_, fun st f l r h => ?_⟩ <;>
      simp [basic_evaluate_expression, expression_loop, basic_evaluate_term,
        term_loop, basic_evaluate_factor, basic_evaluate_function] at h
  | succ n ih =>
    obtain ⟨ihExpr, ihExprLoop, ihTerm, ihTermLoop, ihFactor, ihFun⟩ := ih
    refine ⟨?_, ?_, ?_, ?_, ?_, ?_⟩
    · -- basic_evaluate_expression
      intro st l r h
      simp only [basic_evaluate_expression] at h
      split at h
      · exact Option.noConfusion h
      · rename_i t st1 l1 ht
        exact (ihTerm st l _ ht).trans (ihExprLoop t st1 l1 r h)
    · -- expression_loop
      intro q st l r h
      simp only [expression_loop] at h
      split at h <;>
        [skip; skip; skip; skip; skip; skip; skip; skip;
         (cases h; exact StacksEq.refl st)] <;>
        (split at h
         · exact Option.noConfusion h
         · rename_i t st1 l1 ht
           exact (ihTerm st _ _ ht).trans (ihExprLoop _ st1 l1 r h))
    · -- basic_evaluate_term
      intro st l r h
      simp only [basic_evaluate_term] at h
      split at h
      · exact Option.noConfusion h
      · rename_i t st1 l1 ht
        exact (ihFactor st l _ ht).trans (ihTermLoop t st1 l1 r h)
    · -- term_loop
      intro q st l r h
      simp only [term_loop] at h
      split at h
      · -- '*'
        split at h
        · exact Option.noConfusion h
        · rename_i t st1 l1 ht
          exact (ihFactor st _ _ ht).trans (ihTermLoop _ st1 l1 r h)
      · -- '/'
        split at h
        · exact Option.noConfusion h
        · rename_i t st1 l1 ht
          split at h
          · cases h
            exact (ihFactor st _ _ ht).trans (stacksEq_set_error _ _ _)
          · exact (ihFactor st _ _ ht).trans (ihTermLoop _ st1 l1 r h)
      · cases h; exact StacksEq.refl st
    · -- basic_evaluate_factor
      intro st l r h
      simp only [basic_evaluate_factor] at h
      split at h
      · -- '(' expression ')'
        split at h
        · exact Option.noConfusion h
        · rename_i t st1 l1 ht
          split at h <;> cases h
          · have hs := ihExpr st _ _ ht; exact hs
          · exact (ihExpr st _ _ ht).trans (stacksEq_set_error _ _ _)
      · -- non-parenthesis cases
        split at h
        · split at h
          · cases h; exact StacksEq.refl st
          · split at h
            · -- identifier: variable or function
              split at h
              · exact Option.noConfusion h
              · rename_i tok l1 hg
                split at h
                · cases h; exact stacksEq_get_variable st _
                · split at h
                  · split at h
                    · exact Option.noConfusion h
                    · rename_i t st1 l2 hf
                      cases h
                      have hs := ihFun st _ _ _ hf; exact hs
                  · cases h; exact stacksEq_set_error _ _ _
            · cases h; exact stacksEq_set_error _ _ _
        · cases h; exact stacksEq_set_error _ _ _
    · -- basic_evaluate_function
      intro st f l r h
      simp only [basic_evaluate_function] at h
      split at h
      · split at h
        · exact Option.noConfusion h
        · rename_i t st1 l1 ht
          split at h
          · cases h
            have hs := ihExpr st _ _ ht; exact hs
          · split at h
            · split at h
              · exact Option.noConfusion h
              · rename_i v st2 ha
                cases h
                exact (ihExpr st _ _ ht).trans (stacksEq_apply_function st1 _ _ _ ha)
            · cases h
              exact (ihExpr st _ _ ht).trans (stacksEq_set_error _ _ _)
      · cases h; exact stacksEq_set_error _ _ _

theorem stacksEq_print_loop (fuel : Nat) :
    ∀ st l nl out r, basic_handle_print_loop fuel st l nl out = some r →
      StacksEq st r.2.1 := by
  induction fuel with
  | zero => intro st l nl out r h; exact Option.noConfusion h
  | succ n ih =>
    intro st l nl out r h
    simp only [basic_handle_print_loop] at h
    split at h
    · cases h; exact StacksEq.refl st
    · split at h
      · cases h; exact StacksEq.refl st
      · split at h
        · exact ih st _ nl _ r h
        · split at h
          · exact ih st _ false out r h
          · split at h
            · exact ih st _ nl _ r h
            · split at h
              · exact Option.noConfusion h
              · rename_i t st1 l1 ht
                split at h
                · cases h
                  exact (eval_block_stacksEq n).1 st _ _ ht
                · exact ((eval_block_stacksEq n).1 st _ _ ht).trans (ih st1 _ nl _ r h)

theorem stacksEq_handle_let (fuel : Nat) (st : BASICState) (l : List Char) :
    ∀ r, basic_handle_let fuel st l = some r → StacksEq st r.2.1 := by
  intro r h
  simp only [basic_handle_let] at h
  split at h
  · split at h
    · split at h
      · split at h
        · exact Option.noConfusion h
        · rename_i t st1 l1 ht
          split at h <;> cases h
          · exact (eval_block_stacksEq fuel).1 st _ _ ht
          · exact ((eval_block_stacksEq fuel).1 st _ _ ht).trans
              (stacksEq_set_variable st1 _ _)
      · cases h; exact stacksEq_set_error _ _ _
    · cases h; exact stacksEq_set_error _ _ _
  · cases h; exact stacksEq_set_error _ _ _

theorem stacksEq_for_step (fuel : Nat) (st : BASICState) (l : List Char) :
    ∀ st' l', basic_handle_for_step fuel st l = some (st', l') → StacksEq st st' := by
  intro st' l' h
  simp only [basic_handle_for_step] at h
  split at h
  · split at h
    · split at h
      · exact Option.noConfusion h
      · rename_i tok' l1 hg
        split at h
        · split at h
          · exact Option.noConfusion h
          · rename_i t st1 l2 ht
            cases h
            exact (eval_block_stacksEq fuel).1 st _ _ ht
        · cases h; exact StacksEq.refl st
    · cases h; exact StacksEq.refl st
  · cases h; exact StacksEq.refl st

/-- `basic_handle_for` never touches the GOSUB stack; the FOR stack is
either left unchanged (with failure reported whenever it already held 32
frames) or pushed one frame from strictly below the bound. -/
theorem handle_for_stacks (fuel : Nat) (st : BASICState) (l : List Char) :
    ∀ r, basic_handle_for fuel st l = some r →
      r.2.1.gosubStack = st.gosubStack ∧
      ((r.1 = false ∧ r.2.1.forStack = st.forStack) ∨
       (st.forStack.length < 32 ∧
        ∃ m, r.2.1.forStack = m :: st.forStack)) := by
  intro r h
  simp only [basic_handle_for] at h
  split at h
  case h_2 => cases h; exact ⟨rfl, .inl ⟨rfl, rfl⟩⟩
  split at h
  case isFalse => cases h; exact ⟨rfl, .inl ⟨rfl, rfl⟩⟩
  split at h
  case h_2 => cases h; exact ⟨rfl, .inl ⟨rfl, rfl⟩⟩
  rename_i c hc _ r1
  split at h
  case h_1 => exact Option.noConfusion h
  rename_i t st1 l1 ht
  have hs1 : StacksEq st st1 := (eval_block_stacksEq fuel).1 st _ _ ht
  split at h
  case isTrue => cases h; exact ⟨hs1.2, .inl ⟨rfl, hs1.1⟩⟩
  split at h
  case h_1 => exact Option.noConfusion h
  rename_i tok l2 hg
  split at h
  case isFalse =>
    cases h; exact ⟨hs1.2, .inl ⟨rfl, hs1.1⟩⟩
  split at h
  case h_1 => exact Option.noConfusion h
  rename_i t2 st2 l3 ht2
  have hs2 : StacksEq st st2 := hs1.trans ((eval_block_stacksEq fuel).1 st1 _ _ ht2)
  split at h
  case isTrue => cases h; exact ⟨hs2.2, .inl ⟨rfl, hs2.1⟩⟩
  -- the optional STEP clause
  rename_i hec2
  split at h
  case h_1 => exact Option.noConfusion h
  rename_i stepSt stepL hstep
  have hs3 : StacksEq st stepSt :=
    hs2.trans (stacksEq_for_step fuel st2 _ _ _ hstep)
  split at h
  case isTrue => cases h; exact ⟨hs3.2, .inl ⟨rfl, hs3.1⟩⟩
  split at h
  · cases h
    exact ⟨(hs3.trans (stacksEq_set_variable _ _ _)).2,
      .inl ⟨rfl, (hs3.trans (stacksEq_set_variable _ _ _)).1⟩⟩
  · cases h
    rename_i hlt
    have hs4 := hs3.trans (stacksEq_set_variable stepSt (String.mk
      ((((basic_skip_whitespace l).takeWhile basic_is_alphanumeric).map toupperChar).take 31)) t)
    rw [hs4.1] at hlt
    refine ⟨hs4.2, .inr ⟨by omega,
      (basic_set_variable_value stepSt (String.mk
        ((((basic_skip_whitespace l).takeWhile basic_is_alphanumeric).map
          toupperChar).take 31)) t).currentLineNumber, ?_⟩⟩
    show _ :: (basic_set_variable_value stepSt _ t).forStack = _
    rw [hs4.1]

theorem handle_next_stacks (st : BASICState) (l : List Char) :
    (basic_handle_next st l).2.gosubStack = st.gosubStack ∧
    ((basic_handle_next st l).2.forStack = st.forStack ∨
     (basic_handle_next st l).2.forStack = st.forStack.tail) := by
  cases hf : st.forStack with
  | nil => simp [basic_handle_next, hf]
  | cons x rest => simp [basic_handle_next, hf]

theorem stacksEq_goto_line (st : BASICState) (n : Nat) :
    StacksEq st (basic_handle_goto_line st n).2 := by
  unfold basic_handle_goto_line
  constructor <;> split <;> rfl

theorem handle_gosub_stacks (st : BASICState) (l : List Char) :
    (basic_handle_gosub st l).2.forStack = st.forStack ∧
    ((basic_handle_gosub st l).2.gosubStack = st.gosubStack ∨
     (st.gosubStack.length < 32 ∧
      ∃ m, (basic_handle_gosub st l).2.gosubStack = m :: st.gosubStack)) := by
  unfold basic_handle_gosub
  split
  rename_i p n rest hp
  split
  · exact ⟨rfl, .inl rfl⟩
  · split
    · exact ⟨rfl, .inl rfl⟩
    · rename_i hov
      have h1 := stacksEq_goto_line
        { st with gosubStack := st.currentLineNumber :: st.gosubStack } n
      exact ⟨h1.1, .inr ⟨by omega, st.currentLineNumber, h1.2⟩⟩

theorem handle_return_stacks (st : BASICState) (l : List Char) :
    (basic_handle_return st l).2.forStack = st.forStack ∧
    ((basic_handle_return st l).2.gosubStack = st.gosubStack ∨
     (basic_handle_return st l).2.gosubStack = st.gosubStack.tail) := by
  cases hg : st.gosubStack with
  | nil => simp [basic_handle_return, hg]
  | cons x rest =>
    have h1 := stacksEq_goto_line { st with gosubStack := rest } x
    simp only [basic_handle_return, hg]
    exact ⟨h1.1, .inr (by rw [h1.2]; rfl)⟩

theorem stacksEq_handle_goto (st : BASICState) (l : List Char) :
    StacksEq st (basic_handle_goto st l).2 := by
  unfold basic_handle_goto
  split
  rename_i p n rest hp
  split
  · exact StacksEq.refl st
  · exact stacksEq_goto_line st n

theorem stacksEq_read_loop (fuel : Nat) :
    ∀ st l r, basic_handle_read_loop fuel st l = some r → StacksEq st r.2.1 := by
  induction fuel with
  | zero => intro st l r h; exact Option.noConfusion h
  | succ n ih =>
    intro st l r h
    simp only [basic_handle_read_loop] at h
    split at h
    · cases h; exact StacksEq.refl st
    · split at h
      · cases h; exact StacksEq.refl st
      · split at h
        · split at h
          · cases h; exact StacksEq.refl st
          · exact (stacksEq_set_variable st _ _).trans (ih _ _ r h)
        · exact ih st _ r h

theorem stacksEq_dim_dims (fuel : Nat) :
    ∀ st l dims dc r, dim_parse_dims fuel st l dims dc = some r →
      StacksEq st r.2.1 := by
  induction fuel with
  | zero => intro st l dims dc r h; exact Option.noConfusion h
  | succ n ih =>
    intro st l dims dc r h
    simp only [dim_parse_dims] at h
    split at h
    · cases h; exact StacksEq.refl st
    · cases h; exact StacksEq.refl st
    · split at h
      · cases h; exact StacksEq.refl st
      · split at h
        · cases h; exact stacksEq_set_error _ _ _
        · exact ih st _ _ _ r h

theorem stacksEq_dim_loop (fuel : Nat) :
    ∀ st l r, basic_handle_dim_loop fuel st l = some r → StacksEq st r.2.1 := by
  induction fuel with
  | zero => intro st l r h; exact Option.noConfusion h
  | succ n ih =>
    intro st l r h
    simp only [basic_handle_dim_loop] at h
    split at h
    · cases h; exact StacksEq.refl st
    · split at h
      · cases h; exact StacksEq.refl st
      · -- one DIM item, then the comma and the next item
        rename_i c hc
        split at h
        · exact Option.noConfusion h
        · rename_i okA stA lA hitem
          have hsItem : StacksEq st stA := by
            revert hitem
            split
            · split
              · split
                · intro hx; exact Option.noConfusion hx
                · rename_i ok1 st1 dims1 dc1 l1 hd
                  split
                  · split
                    · intro hx; cases hx
                      exact (stacksEq_dim_dims n st _ _ _ _ hd).trans
                        (stacksEq_create_array st1 _ _ _)
                    · intro hx; cases hx
                      exact (stacksEq_dim_dims n st _ _ _ _ hd).trans
                        (stacksEq_create_array st1 _ _ _)
                  · intro hx; cases hx
                    exact stacksEq_dim_dims n st _ _ _ _ hd
              · intro hx; cases hx; exact stacksEq_set_error _ _ _
            · intro hx; cases hx; exact StacksEq.refl st
          split at h
          · exact hsItem.trans (ih _ _ r h)
          · cases h; exact hsItem

theorem stacksEq_handle_data (st : BASICState) (l : List Char) :
    StacksEq st (basic_handle_data st l).2 := StacksEq.refl st

theorem stacksEq_handle_end (st : BASICState) (l : List Char) :
    StacksEq st (basic_handle_end st l).2 := ⟨rfl, rfl⟩

theorem stacksEq_handle_stop (st : BASICState) (l : List Char) :
    StacksEq st (basic_handle_stop st l).2 := ⟨rfl, rfl⟩

/-- Both stack-depth bounds are preserved by every statement (the mutual
executeStatement / IF pair), by induction on the recursion fuel. -/
theorem exec_stack_bound (fuel : Nat) :
    (∀ st l r, executeStatement fuel st l = some r →
      st.forStack.length ≤ 32 → st.gosubStack.length ≤ 32 →
      r.2.1.forStack.length ≤ 32 ∧ r.2.1.gosubStack.length ≤ 32) ∧
    (∀ st l r, basic_handle_if fuel st l = some r →
      st.forStack.length ≤ 32 → st.gosubStack.length ≤ 32 →
      r.2.1.forStack.length ≤ 32 ∧ r.2.1.gosubStack.length ≤ 32) := by
  induction fuel with
  | zero =>
    exact ⟨fun st l r h => Option.noConfusion h, fun st l r h => Option.noConfusion h⟩
  | succ n ih =>
    obtain ⟨ihExec, ihIf⟩ := ih
    constructor
    · -- executeStatement
      intro st l r h hf hg
      simp only [executeStatement] at h
      split at h
      · cases h; exact ⟨hf, hg⟩
      · split at h
        · cases h; exact ⟨hf, hg⟩
        · rename_i tok l1 htok
          split at h
          · -- PRINT
            have := stacksEq_print_loop n st _ true "" r h
            rw [this.1, this.2]; exact ⟨hf, hg⟩
          · -- INPUT
            exact Option.noConfusion h
          · -- LET
            have := stacksEq_handle_let n st _ r h
            rw [this.1, this.2]; exact ⟨hf, hg⟩
          · -- IF
            exact ihIf st _ r h hf hg
          · -- FOR
            obtain ⟨h1, h2⟩ := handle_for_stacks n st _ r h
            rw [h1]
            rcases h2 with ⟨_, h3⟩ | ⟨hlen, m, h3⟩ <;> rw [h3]
            · exact ⟨hf, hg⟩
            · exact ⟨by simp only [List.length_cons]; omega, hg⟩
          · -- NEXT
            cases h
            obtain ⟨h1, h2⟩ := handle_next_stacks st _
            simp only [liftHandler]
            rw [h1]
            rcases h2 with h3 | h3 <;> rw [h3]
            · exact ⟨hf, hg⟩
            · exact ⟨by rw [List.length_tail]; omega, hg⟩
          · -- GOSUB
            cases h
            obtain ⟨h1, h2⟩ := handle_gosub_stacks st _
            simp only [liftHandler]
            rw [h1]
            rcases h2 with h3 | ⟨hlen, m, h3⟩ <;> rw [h3]
            · exact ⟨hf, hg⟩
            · exact ⟨hf, by simp only [List.length_cons]; omega⟩
          · -- RETURN
            cases h
            obtain ⟨h1, h2⟩ := handle_return_stacks st _
            simp only [liftHandler]
            rw [h1]
            rcases h2 with h3 | h3 <;> rw [h3]
            · exact ⟨hf, hg⟩
            · exact ⟨hf, by rw [List.length_tail]; omega⟩
          · -- GOTO
            cases h
            obtain ⟨h1, h2⟩ := stacksEq_handle_goto st _
            simp only [liftHandler]
            rw [h1, h2]; exact ⟨hf, hg⟩
          · -- READ
            have := stacksEq_read_loop n st _ r h
            rw [this.1, this.2]; exact ⟨hf, hg⟩
          · -- DATA
            cases h; exact ⟨hf, hg⟩
          · -- DIM
            have := stacksEq_dim_loop n st _ r h
            rw [this.1, this.2]; exact ⟨hf, hg⟩
          · -- END
            cases h; exact ⟨hf, hg⟩
          · -- STOP
            cases h; exact ⟨hf, hg⟩
          · -- REM
            cases h; exact ⟨hf, hg⟩
          · -- implicit LET
            have := stacksEq_handle_let n st _ r h
            rw [this.1, this.2]; exact ⟨hf, hg⟩
          · -- unrecognized
            cases h; exact ⟨hf, hg⟩
    · -- basic_handle_if
      intro st l r h hf hg
      simp only [basic_handle_if] at h
      split at h
      · exact Option.noConfusion h
      · rename_i t st1 l1 ht
        have hs1 : StacksEq st st1 := (eval_block_stacksEq n).1 st _ _ ht
        split at h
        · cases h
          exact ⟨by simpa [hs1.1] using hf, by simpa [hs1.2] using hg⟩
        · split at h
          · cases h
            exact ⟨by simpa [hs1.1] using hf, by simpa [hs1.2] using hg⟩
          · split at h
            · exact Option.noConfusion h
            · rename_i tok l2 htok
              split at h
              · split at h
                · cases h
                  exact ⟨by simpa [hs1.1] using hf, by simpa [hs1.2] using hg⟩
                · exact ihExec st1 _ r h (by rw [hs1.1]; exact hf) (by rw [hs1.2]; exact hg)
              · cases h
                exact ⟨by simpa [hs1.1] using hf, by simpa [hs1.2] using hg⟩

theorem run_loop_stack_bound (fuel : Nat) :
    ∀ lines st r, basic_run_program_loop fuel st lines = some r →
      st.forStack.length ≤ 32 → st.gosubStack.length ≤ 32 →
      r.1.forStack.length ≤ 32 ∧ r.1.gosubStack.length ≤ 32 := by
  intro lines
  induction lines with
  | nil => intro st r h hf hg; cases h; exact ⟨hf, hg⟩
  | cons line rest ih =>
    intro st r h hf hg
    simp only [basic_run_program_loop] at h
    split at h
    · split at h
      · exact Option.noConfusion h
      · rename_i ok st1 out hexec
        have hb := (exec_stack_bound fuel).1 _ _ _ hexec hf hg
        split at h
        · split at h
          · exact Option.noConfusion h
          · rename_i st2 out2 hrec
            cases h
            exact ih st1 (st2, out2) hrec hb.1 hb.2
        · cases h; exact hb
    · cases h; exact ⟨hf, hg⟩

theorem run_stack_bound (fuel : Nat) (st : BASICState) :
    ∀ r, basic_run_program fuel st = some r →
      st.forStack.length ≤ 32 → st.gosubStack.length ≤ 32 →
      r.2.1.forStack.length ≤ 32 ∧ r.2.1.gosubStack.length ≤ 32 := by
  intro r h hf hg
  simp only [basic_run_program] at h
  split at h
  · cases h; exact ⟨hf, hg⟩
  · split at h
    · exact Option.noConfusion h
    · rename_i st1 out hloop
      cases h
      exact run_loop_stack_bound fuel _ _ (st1, out) hloop hf hg

/-! ### Concrete states with a full control stack (32 frames) -/

def fullForState : BASICState := { basic_init with forStack := List.replicate 32 0 }

def fullGosubState : BASICState := { basic_init with gosubStack := List.replicate 32 0 }

/-- The state left behind by a valid FOR statement executed on a full
(32-frame) FOR stack: the loop variable was already assigned, the stack is
untouched and the stack-overflow error is recorded. -/
def forOverflowState : BASICState :=
  { programLines := [], currentLineNumber := 0, programSize := 0,
    «variables» := [{ name := "I", type := .VAR_NUMERIC, value := .num (Q.ofInt 1) }],
    running := false, errorCode := ERR_STACK_OVERFLOW,
    errorMessage := "FOR loop stack overflow",
    forStack := List.replicate 32 0, gosubStack := [] }

def remProgramState : BASICState := { basic_init with programLines := [⟨10, "REM"⟩] }

/-! ### Claims -/

set_option maxRecDepth 1000000 in
/-- C5: in every reachable session state the FOR-stack depth and the
GOSUB-stack depth stay between 0 and 32 (depths are list lengths, hence
never negative; `basic_init` starts both at 0, and both statement
execution and whole-program runs preserve the ≤ 32 bound); executing FOR
with 32 frames already on the FOR stack, or GOSUB with 32 frames on the
GOSUB stack, fails without pushing a frame, and for well-formed statements
the recorded error is the control-stack-overflow code
(`ERR_STACK_OVERFLOW`). -/
theorem C5_control_stack_bounds :
    (basic_init.forStack.length = 0 ∧ basic_init.gosubStack.length = 0) ∧
    (∀ fuel st l r, executeStatement fuel st l = some r →
      st.forStack.length ≤ 32 → st.gosubStack.length ≤ 32 →
      r.2.1.forStack.length ≤ 32 ∧ r.2.1.gosubStack.length ≤ 32) ∧
    (∀ fuel st r, basic_run_program fuel st = some r →
      st.forStack.length ≤ 32 → st.gosubStack.length ≤ 32 →
      r.2.1.forStack.length ≤ 32 ∧ r.2.1.gosubStack.length ≤ 32) ∧
    (∀ fuel st l r, st.forStack.length = 32 → basic_handle_for fuel st l = some r →
      r.1 = false ∧ r.2.1.forStack = st.forStack) ∧
    (∀ st l, st.gosubStack.length = 32 →
      (basic_handle_gosub st l).1 = false ∧
      (basic_handle_gosub st l).2.gosubStack = st.gosubStack) ∧
    ((basic_execute_line 99 fullForState "FOR I = 1 TO 5").map
        (fun r => (r.1, r.2.1.errorCode, r.2.1.forStack.length)) =
      some (false, ERR_STACK_OVERFLOW, 32)) ∧
    ((basic_execute_line 99 fullGosubState "GOSUB 100").map
        (fun r => (r.1, r.2.1.errorCode, r.2.1.gosubStack.length)) =
      some (false, ERR_STACK_OVERFLOW, 32)) := by
  refine ⟨⟨rfl, rfl⟩, fun fuel => (exec_stack_bound fuel).1,
    fun fuel st r => run_stack_bound fuel st r, ?_, ?_, by decide, by decide⟩
  · intro fuel st l r h32 hfor
    obtain ⟨_, hcase⟩ := handle_for_stacks fuel st l r hfor
    rcases hcase with ⟨hfalse, heq⟩ | ⟨hlt, _⟩
    · exact ⟨hfalse, heq⟩
    · omega
  · intro st l h32
    unfold basic_handle_gosub
    split
    rename_i p n rest hp
    split
    · exact ⟨rfl, rfl⟩
    · split
      · exact ⟨rfl, rfl⟩
      · rename_i hov
        omega

set_option maxRecDepth 1000000 in
/-- Witness for C5: the preservation, run and full-stack clauses applied at
concrete inputs (REM on the fresh session, a one-line program run, and a
well-formed FOR / GOSUB on a 32-frame stack). -/
theorem C5_control_stack_bounds_witness :
    ((true, basic_init, ("" : String)).2.1.forStack.length ≤ 32 ∧
     (true, basic_init, ("" : String)).2.1.gosubStack.length ≤ 32) ∧
    ((true, { remProgramState with currentLineNumber := 10 },
        ("" : String)).2.1.forStack.length ≤ 32 ∧
     (true, { remProgramState with currentLineNumber := 10 },
        ("" : String)).2.1.gosubStack.length ≤ 32) ∧
    ((false, forOverflowState, ("" : String)).1 = false ∧
     (false, forOverflowState, ("" : String)).2.1.forStack = fullForState.forStack) ∧
    ((basic_handle_gosub fullGosubState (" 100".data)).1 = false ∧
     (basic_handle_gosub fullGosubState (" 100".data)).2.gosubStack =
       fullGosubState.gosubStack) :=
  ⟨C5_control_stack_bounds.2.1 9 basic_init ("REM".data) (true, basic_init, "")
      (by decide) (by decide) (by decide),
   C5_control_stack_bounds.2.2.1 50 remProgramState
      (true, { remProgramState with currentLineNumber := 10 }, "")
      (by decide) (by decide) (by decide),
   C5_control_stack_bounds.2.2.2.1 9 fullForState (" I = 1 TO 5".data)
      (false, forOverflowState, "") (by decide) (by decide),
   C5_control_stack_bounds.2.2.2.2.1 fullGosubState (" 100".data) (by decide)⟩

set_option maxRecDepth 1000000 in
/-- C1 (evidence for the code bug): running the stored program
`10 FOR I=1 TO 5 STEP 2` / `20 NEXT I` performs exactly ONE pass, not the
three passes with I = 1, 3, 5 the claim describes: FOR assigns I = 1 and
pushes line 10; `basic_handle_next` only pops the frame — it re-evaluates
nothing, increments nothing and never redirects the cursor — and the run
loop simply advances to the next stored line and terminates with I still
1, the FOR stack empty and no error reported. -/
theorem C1_for_next_performs_single_pass :
    ((basic_load_program 60 "10 FOR I=1 TO 5 STEP 2\n20 NEXT I").bind
        (fun r => basic_run_program 60 r.2)).map
      (fun r => (r.1, r.2.1.variables, r.2.1.forStack)) =
    some (true,
      [{ name := "I", type := .VAR_NUMERIC, dimensions := [], size := 0,
         value := .num (Q.ofInt 1) }], []) := by
  decide

set_option maxRecDepth 1000000 in
/-- C2 (evidence for the code bug): GOTO never redirects execution.
First program: `10 GOTO 30` / `20 LET A = 1` / `30 END` — line 30 exists,
yet the run fails with the line-not-found error, because
`basic_handle_goto` calls `basic_parse_int` on the cursor still at
`" 30"` (no blank is skipped, so the target parses as 0) and
`basic_handle_goto_line` resolves that line without ever changing the run
loop's cursor.  Second program: `0 REM` / `10 GOTO 999` — no line 999
exists, yet the run SUCCEEDS with no error, because the mis-parsed target
0 does exist.  Both halves of the claim fail on the code. -/
theorem C2_goto_does_not_redirect :
    (((basic_load_program 60 "10 GOTO 30\n20 LET A = 1\n30 END").bind
        (fun r => basic_run_program 60 r.2)).map
      (fun r => (r.1, r.2.1.errorCode, r.2.1.errorMessage)) =
      some (false, ERR_LINE_NOT_FOUND, "Line not found")) ∧
    (((basic_load_program 60 "0 REM\n10 GOTO 999").bind
        (fun r => basic_run_program 60 r.2)).map
      (fun r => (r.1, r.2.1.errorCode)) =
      some (true, ERR_NONE)) := by
  exact ⟨by decide, by decide⟩

/-- C3: in EVERY session state, executing `LET Y = 10 / 0` fails with the
division-by-zero error (code `ERR_DIVISION_BY_ZERO`, message
"Division by zero" — no infinity is produced) and leaves the variable
store — in particular Y, whether unset or holding any value — exactly as
it was, along with the program table and both control stacks. -/
theorem C3_let_div_by_zero_leaves_Y_unmodified (st : BASICState) :
    basic_execute_line 50 st "LET Y = 10 / 0" =
      some (false, basic_set_error st ERR_DIVISION_BY_ZERO "Division by zero", "") ∧
    (basic_set_error st ERR_DIVISION_BY_ZERO "Division by zero").variables =
      st.variables ∧
    (basic_set_error st ERR_DIVISION_BY_ZERO "Division by zero").errorCode =
      ERR_DIVISION_BY_ZERO ∧
    (basic_set_error st ERR_DIVISION_BY_ZERO "Division by zero").errorMessage =
      "Division by zero" ∧
    (basic_set_error st ERR_DIVISION_BY_ZERO "Division by zero").programLines =
      st.programLines ∧
    (basic_set_error st ERR_DIVISION_BY_ZERO "Division by zero").forStack =
      st.forStack ∧
    (basic_set_error st ERR_DIVISION_BY_ZERO "Division by zero").gosubStack =
      st.gosubStack :=
  ⟨rfl, rfl, rfl, rfl, rfl, rfl, rfl⟩

/-- C6: executing RETURN in any state with an empty GOSUB stack fails with
the error whose message is "RETURN without GOSUB" (the source reports it
under the `ERR_SYNTAX` code — there is no dedicated code for it), and
executing NEXT in any state with an empty FOR stack fails with the
NEXT-without-FOR error (`ERR_NEXT_WITHOUT_FOR`); in both cases the empty
stack stays empty and the other stack is untouched. -/
theorem C6_return_and_next_on_empty_stacks :
    (∀ st : BASICState, st.gosubStack = [] →
      basic_execute_line 50 st "RETURN" =
        some (false, basic_set_error st ERR_SYNTAX "RETURN without GOSUB", "") ∧
      (basic_set_error st ERR_SYNTAX "RETURN without GOSUB").gosubStack = [] ∧
      (basic_set_error st ERR_SYNTAX "RETURN without GOSUB").forStack = st.forStack ∧
      (basic_set_error st ERR_SYNTAX "RETURN without GOSUB").errorMessage =
        "RETURN without GOSUB") ∧
    (∀ st : BASICState, st.forStack = [] →
      basic_execute_line 50 st "NEXT" =
        some (false, basic_set_error st ERR_NEXT_WITHOUT_FOR "NEXT without FOR", "") ∧
      (basic_set_error st ERR_NEXT_WITHOUT_FOR "NEXT without FOR").forStack = [] ∧
      (basic_set_error st ERR_NEXT_WITHOUT_FOR "NEXT without FOR").gosubStack =
        st.gosubStack ∧
      (basic_set_error st ERR_NEXT_WITHOUT_FOR "NEXT without FOR").errorCode =
        ERR_NEXT_WITHOUT_FOR ∧
      (basic_set_error st ERR_NEXT_WITHOUT_FOR "NEXT without FOR").errorMessage =
        "NEXT without FOR") := by
  constructor
  · intro st hg
    obtain ⟨pl, cln, ps, vars, run, ec, em, fs, gs⟩ := st
    replace hg : gs = [] := hg
    subst hg
    exact ⟨rfl, rfl, rfl, rfl⟩
  · intro st hf
    obtain ⟨pl, cln, ps, vars, run, ec, em, fs, gs⟩ := st
    replace hf : fs = [] := hf
    subst hf
    exact ⟨rfl, rfl, rfl, rfl, rfl⟩

/-- Witness for C6: both halves applied to the freshly initialized session,
whose two control stacks are empty. -/
theorem C6_return_and_next_on_empty_stacks_witness :
    (basic_execute_line 50 basic_init "RETURN" =
        some (false, basic_set_error basic_init ERR_SYNTAX "RETURN without GOSUB", "") ∧
      (basic_set_error basic_init ERR_SYNTAX "RETURN without GOSUB").gosubStack = [] ∧
      (basic_set_error basic_init ERR_SYNTAX "RETURN without GOSUB").forStack =
        basic_init.forStack ∧
      (basic_set_error basic_init ERR_SYNTAX "RETURN without GOSUB").errorMessage =
        "RETURN without GOSUB") ∧
    (basic_execute_line 50 basic_init "NEXT" =
        some (false, basic_set_error basic_init ERR_NEXT_WITHOUT_FOR "NEXT without FOR", "") ∧
      (basic_set_error basic_init ERR_NEXT_WITHOUT_FOR "NEXT without FOR").forStack = [] ∧
      (basic_set_error basic_init ERR_NEXT_WITHOUT_FOR "NEXT without FOR").gosubStack =
        basic_init.gosubStack ∧
      (basic_set_error basic_init ERR_NEXT_WITHOUT_FOR "NEXT without FOR").errorCode =
        ERR_NEXT_WITHOUT_FOR ∧
      (basic_set_error basic_init ERR_NEXT_WITHOUT_FOR "NEXT without FOR").errorMessage =
        "NEXT without FOR") :=
  ⟨C6_return_and_next_on_empty_stacks.1 basic_init rfl,
   C6_return_and_next_on_empty_stacks.2 basic_init rfl⟩

set_option maxRecDepth 1000000 in
/-- C7 (evidence for the code bug): `addLine`'s replace path is broken.
Replacing line 20 in the table {10, 20, 30} reports success but DELETES
line 20 outright — `previous->next = current->next` unlinks both the
freshly inserted node and the old one — instead of replacing its text and
leaving the rest unchanged; and replacing the FIRST line of a table
dereferences the NULL `previous` pointer (modelled as `none`).  Inserting
a genuinely new line number does keep the table strictly sorted, as the
third conjunct shows. -/
theorem C7_insert_or_replace_deletes_line :
    ((addLine { basic_init with
          programLines := [⟨10, "A"⟩, ⟨20, "B"⟩, ⟨30, "C"⟩] } 20 "X").map
        (fun r => (r.1, r.2.programLines)) =
      some (true, [⟨10, "A"⟩, ⟨30, "C"⟩])) ∧
    (addLine { basic_init with programLines := [⟨20, "B"⟩] } 20 "X" = none) ∧
    ((addLine { basic_init with
          programLines := [⟨10, "A"⟩, ⟨30, "C"⟩] } 20 "X").map
        (fun r => (r.1, r.2.programLines)) =
      some (true, [⟨10, "A"⟩, ⟨20, "X"⟩, ⟨30, "C"⟩])) := by
  exact ⟨by decide, by decide, by decide⟩

/-- The last character of a non-empty alphanumeric span satisfies the span
predicate. -/
theorem takeWhile_getLast?_pred {α : Type} {p : α → Bool} {l : List α} {a : α}
    (h : (l.takeWhile p).getLast? = some a) : p a := by
  have hm : a ∈ (l.takeWhile p).getLast? := h
  obtain ⟨hne, heq⟩ := List.mem_getLast?_eq_getLast hm
  exact List.mem_takeWhile_imp (heq ▸ List.getLast_mem hne)

set_option maxRecDepth 1000000 in
/-- C4 (evidence for the code bug): the lexer classifies `ABS(5)` — a
multi-character identifier immediately followed by `(` — as a VARIABLE
token, not a function-name token.  The classifier tests
`*(*linePtr - 1) == '('`, i.e. whether the **last character of the
consumed identifier span itself** is `(`; the second and third conjuncts
show that the last character of an alphanumeric span always satisfies
`basic_is_alphanumeric` while `(` never does, so that test is false for
every input and `TOK_FUNCTION` is never emitted.  Consequently even the
repository's own test input `LET D = ABS(-5)` fails: `ABS` is read as an
(undefined) variable. -/
theorem C4_identifier_classification_never_function :
    (basic_get_token ("ABS(5)".data) =
      some ({ type := .TOK_VARIABLE, stringValue := "ABS",
              floatValue := Q.ofInt 0 }, ['(', '5', ')'])) ∧
    (∀ l : List Char,
      ((l.takeWhile basic_is_alphanumeric).getLast?.all basic_is_alphanumeric) = true) ∧
    (basic_is_alphanumeric '(' = false) ∧
    ((basic_execute_line 80 basic_init "LET D = ABS(-5)").map
        (fun r => (r.1, r.2.1.errorCode, r.2.1.errorMessage)) =
      some (false, ERR_UNDEFINED_VARIABLE, "Undefined variable")) := by
  refine ⟨by decide, ?_, by decide, by decide⟩
  intro l
  cases hl : (l.takeWhile basic_is_alphanumeric).getLast? with
  | none => rfl
  | some a => simpa [Option.all] using takeWhile_getLast?_pred hl

/-- A session whose only variable is the numeric scalar A = 3. -/
def stateA3 : BASICState :=
  { basic_init with «variables» :=
      [{ name := "A", type := .VAR_NUMERIC, value := .num (Q.ofInt 3) }] }

set_option maxRecDepth 1000000 in
/-- C8 counterexample: with A = 3, `PRINT "A="; A` outputs exactly
`A=3.000000` with NO trailing newline — not `A=3.000000\n` as the claim
states — because `basic_handle_print` clears its `newline` flag on ANY
semicolon and never sets it again. -/
theorem C8_semicolon_suppresses_newline_counterexample :
    (basic_execute_line 50 stateA3 "PRINT \"A=\"; A" =
      some (true, stateA3, "A=3.000000")) ∧
    ("A=3.000000" : String) ≠ "A=3.000000" ++ "\n" := by
  exact ⟨by decide, by decide⟩

set_option maxRecDepth 1000000 in
/-- C8 amended: with A = 3, `PRINT "A="; A` prints exactly `A=3.000000`
with no trailing newline — a `;` separator ANYWHERE in the statement (not
only a trailing one) suppresses the trailing newline; `,` instead of `;`
inserts the fixed five-space separator (and keeps the newline); a trailing
`;` likewise suppresses the newline. -/
theorem C8_print_separators_amended :
    (basic_execute_line 50 stateA3 "PRINT \"A=\"; A" =
      some (true, stateA3, "A=3.000000")) ∧
    (basic_execute_line 50 stateA3 "PRINT \"A=\", A" =
      some (true, stateA3, "A=     3.000000\n")) ∧
    (basic_execute_line 50 stateA3 "PRINT A;" =
      some (true, stateA3, "3.000000")) := by
  exact ⟨by decide, by decide, by decide⟩

set_option maxRecDepth 1000000 in
/-- C9 (evidence for the code bug): array element access is not
implemented.  `DIM ARR(5)` does create a numeric array variable, but
`LET ARR(1) = 100` fails with a syntax error ("Expected equals sign" — the
LET handler cannot parse a subscripted target), and evaluating `ARR(1)`
yields 0 with a type-mismatch error (the lexer hands `ARR` to the
evaluator as a scalar variable, see C4); no array-bounds checking is ever
reached, and `basic_get_array_element` is declared in the header but never
defined. -/
theorem C9_array_element_access_unimplemented :
    ((basic_execute_line 80 basic_init "DIM ARR(5)").map
        (fun r => (r.1, (basic_find_variable r.2.1 "ARR").map
          (fun v => (v.type, v.dimensions, v.size)))) =
      some (true, some (.VAR_ARRAY_NUMERIC, [5], 1))) ∧
    (((basic_execute_line 80 basic_init "DIM ARR(5)").bind
        (fun r => basic_execute_line 80 r.2.1 "LET ARR(1) = 100")).map
        (fun r => (r.1, r.2.1.errorCode, r.2.1.errorMessage)) =
      some (false, ERR_SYNTAX, "Expected equals sign")) ∧
    (((basic_execute_line 80 basic_init "DIM ARR(5)").bind
        (fun r => basic_evaluate_expression 80 r.2.1 ("ARR(1)".data))).map
        (fun r => (r.1, r.2.1.errorCode, r.2.1.errorMessage)) =
      some (Q.ofInt 0, ERR_TYPE_MISMATCH, "Variable is not numeric")) := by
  exact ⟨by decide, by decide, by decide⟩

set_option maxRecDepth 1000000 in
/-- C10: every public session entry point substitutes the process-wide
`globalState` (heap address 0) for a NULL state pointer instead of
failing: calling with NULL behaves exactly like calling with a pointer to
the global (first five conjuncts), a NULL call mutates no other heap cell,
and two successive NULL calls observe and mutate the same state — the
second `LET` reads the variable written by the first and both land in the
same global store. -/
theorem C10_null_state_resolves_to_global :
    (∀ h : Nat → BASICState, basic_init_api h none = basic_init_api h (some 0)) ∧
    (∀ (h : Nat → BASICState) (fuel : Nat) (text : String),
      basic_load_program_api fuel h none text =
        basic_load_program_api fuel h (some 0) text) ∧
    (∀ (h : Nat → BASICState) (fuel : Nat),
      basic_run_program_api fuel h none = basic_run_program_api fuel h (some 0)) ∧
    (∀ (h : Nat → BASICState) (fuel : Nat) (text : String),
      basic_execute_line_api fuel h none text =
        basic_execute_line_api fuel h (some 0) text) ∧
    (∀ (h : Nat → BASICState) (c : Nat) (m : String),
      basic_set_error_api h none c m = basic_set_error_api h (some 0) c m) ∧
    (∀ (h : Nat → BASICState) (a : Nat), a ≠ 0 → basic_init_api h none a = h a) ∧
    (∀ h : Nat → BASICState,
      ((basic_execute_line_api 50 (basic_init_api h none) none "LET A = 7").bind
          (fun r => basic_execute_line_api 50 r.1 none "LET B = A")).map
        (fun r => (r.2.1, (r.1 0).variables)) =
      some (true,
        [{ name := "A", type := .VAR_NUMERIC, value := .num (Q.ofInt 7) },
         { name := "B", type := .VAR_NUMERIC, value := .num (Q.ofInt 7) }])) := by
  refine ⟨fun h => rfl, fun h fuel text => rfl, fun h fuel => rfl,
    fun h fuel text => rfl, fun h c m => rfl, ?_, fun h => rfl⟩
  intro h a ha
  exact Function.update_noteq ha _ _

/-- Witness for C10: a NULL `basic_init` call leaves heap cell 1 alone. -/
theorem C10_null_state_resolves_to_global_witness :
    basic_init_api (fun _ => basic_init) none 1 = (fun _ => basic_init) 1 :=
  C10_null_state_resolves_to_global.2.2.2.2.2.1 (fun _ => basic_init) 1 (by decide)

end OrionBasic
